import Mathlib

/-!
Shallow embedding of the `plugin-shapes` repository: five vector-shape layer
types (rectangle, ellipse, line, polygon, star) with property schemas,
default-property construction, canvas-render geometry, and the MCP tool
handlers (`add_shape`, `set_shape_style`, `set_polygon`, `add_line`).

Numbers in property bags, bounds and transforms are modelled as rationals;
the trigonometric vertex generators (`polygonPoints`, `starPoints`) are
modelled over the reals.  JavaScript records are modelled as association
lists from keys to values, and the untyped tool inputs as structures of
`Option` fields (a `none` field is a key absent from the input record; the
handlers read no other keys).  Host-side effects (`layers.add`,
`layers.updateProperties`, `emitChange`) are recorded in a `ToolOutcome`
value rather than performed.
-/

namespace GenartShapes

/-! Property values and property bags (JS objects keyed by strings). -/

inductive PropValue where
  | num (q : ℚ)
  | str (s : String)
  | bool (b : Bool)
deriving DecidableEq, Repr

abbrev Props := List (String × PropValue)

/-- Reading `properties[k]` from a JS object: the value at key `k`, if present.
Keys in every bag built by this plugin are distinct, so first-match lookup
agrees with JS object access. -/
def getProp (ps : Props) (k : String) : Option PropValue :=
  (ps.find? (fun kv => kv.1 = k)).map (fun kv => kv.2)

/-- Writing `properties[k] = v` on a JS object: replaces the value at an
existing key in place, otherwise appends the new key (JS objects keep
insertion order). -/
def setProp (ps : Props) (k : String) (v : PropValue) : Props :=
  if ps.any (fun kv => kv.1 = k) then
    ps.map (fun kv => if kv.1 = k then (k, v) else kv)
  else ps ++ [(k, v)]

/-- The idiom `(properties[k] as number) ?? d` from the render functions:
`none` result means the stored value was present but not a number, a case
the TypeScript cast leaves to JS coercion and this model does not assign a
numeric meaning to. -/
def getNumOr (ps : Props) (k : String) (d : ℚ) : Option ℚ :=
  match getProp ps k with
  | none => some d
  | some (PropValue.num q) => some q
  | some _ => none

/-! Property schemas (src/shared.ts and the per-shape schema lists). -/

structure LayerPropertySchema where
  key : String
  label : String
  type : String
  default : PropValue
  min : Option ℚ
  max : Option ℚ
  step : Option ℚ
  group : String
  options : List (String × String)
deriving DecidableEq, Repr

/-- COMMON_SHAPE_PROPERTIES from src/shared.ts. -/
def COMMON_SHAPE_PROPERTIES : List LayerPropertySchema :=
  [⟨"fillColor", "Fill Color", "color", PropValue.str "#ffffff", none, none, none, "fill", []⟩,
   ⟨"fillEnabled", "Fill Enabled", "boolean", PropValue.bool true, none, none, none, "fill", []⟩,
   ⟨"strokeColor", "Stroke Color", "color", PropValue.str "#000000", none, none, none, "stroke", []⟩,
   ⟨"strokeWidth", "Stroke Width", "number", PropValue.num 0, some 0, some 100, some 0.5, "stroke", []⟩,
   ⟨"strokeEnabled", "Stroke Enabled", "boolean", PropValue.bool false, none, none, none, "stroke", []⟩]

/-- RECT_PROPERTIES from src/rect.ts. -/
def RECT_PROPERTIES : List LayerPropertySchema :=
  COMMON_SHAPE_PROPERTIES ++
  [⟨"cornerRadius", "Corner Radius", "number", PropValue.num 0, some 0, some 500, some 1, "shape", []⟩]

/-- LINE_PROPERTIES from src/line.ts (no common properties: no fill). -/
def LINE_PROPERTIES : List LayerPropertySchema :=
  [⟨"strokeColor", "Line Color", "color", PropValue.str "#ffffff", none, none, none, "stroke", []⟩,
   ⟨"strokeWidth", "Line Width", "number", PropValue.num 2, some 0.5, some 100, some 0.5, "stroke", []⟩,
   ⟨"lineCap", "Line Cap", "select", PropValue.str "round", none, none, none, "stroke",
     [("butt", "Butt"), ("round", "Round"), ("square", "Square")]⟩,
   ⟨"dashPattern", "Dash Pattern", "string", PropValue.str "", none, none, none, "stroke", []⟩]

/-- POLYGON_PROPERTIES from src/polygon.ts. -/
def POLYGON_PROPERTIES : List LayerPropertySchema :=
  COMMON_SHAPE_PROPERTIES ++
  [⟨"sides", "Sides", "number", PropValue.num 6, some 3, some 100, some 1, "shape", []⟩,
   ⟨"rotation", "Rotation", "number", PropValue.num 0, some 0, some 360, some 1, "shape", []⟩]

/-- STAR_PROPERTIES from src/star.ts. -/
def STAR_PROPERTIES : List LayerPropertySchema :=
  COMMON_SHAPE_PROPERTIES ++
  [⟨"points", "Points", "number", PropValue.num 5, some 3, some 50, some 1, "shape", []⟩,
   ⟨"innerRadius", "Inner Radius", "number", PropValue.num 0.4, some 0.05, some 0.95, some 0.01, "shape", []⟩,
   ⟨"rotation", "Rotation", "number", PropValue.num 0, some 0, some 360, some 1, "shape", []⟩]

/-! The five registered layer types. -/

inductive ShapeType where
  | rect
  | ellipse
  | line
  | polygon
  | star
deriving DecidableEq, Repr

def propertiesOf : ShapeType → List LayerPropertySchema
  | ShapeType.rect => RECT_PROPERTIES
  | ShapeType.ellipse => COMMON_SHAPE_PROPERTIES
  | ShapeType.line => LINE_PROPERTIES
  | ShapeType.polygon => POLYGON_PROPERTIES
  | ShapeType.star => STAR_PROPERTIES

def typeId : ShapeType → String
  | ShapeType.rect => "shapes:rect"
  | ShapeType.ellipse => "shapes:ellipse"
  | ShapeType.line => "shapes:line"
  | ShapeType.polygon => "shapes:polygon"
  | ShapeType.star => "shapes:star"

def displayName : ShapeType → String
  | ShapeType.rect => "Rectangle"
  | ShapeType.ellipse => "Ellipse"
  | ShapeType.line => "Line"
  | ShapeType.polygon => "Polygon"
  | ShapeType.star => "Star"

/-- The plugin descriptor registers all five layer types, in this order
(src/index.ts `layerTypes`). -/
def registeredLayerTypeIds : List String :=
  ["shapes:rect", "shapes:ellipse", "shapes:line", "shapes:polygon", "shapes:star"]

/-- `createDefault()` of each layer type: the loop
`for (schema of PROPERTIES) props[schema.key] = schema.default` over a
schema list with pairwise-distinct keys builds exactly this association
list. -/
def createDefault (t : ShapeType) : Props :=
  (propertiesOf t).map (fun s => (s.key, s.default))

/-! Geometry generators (src/polygon.ts `polygonPoints`, src/star.ts
`starPoints`).  The loop counters are naturals; coordinates are reals. -/

noncomputable def polygonPoints (cx cy radius : ℝ) (sides : ℕ) (rotationDeg : ℝ) :
    List (ℝ × ℝ) :=
  (List.range sides).map (fun (i : ℕ) =>
    let angleStep : ℝ := Real.pi * 2 / sides
    let startAngle : ℝ := rotationDeg * Real.pi / 180 - Real.pi / 2
    let angle := startAngle + (i : ℝ) * angleStep
    (cx + radius * Real.cos angle, cy + radius * Real.sin angle))

noncomputable def starPoints (cx cy outerRadius innerRadiusRatio : ℝ) (numPoints : ℕ)
    (rotationDeg : ℝ) : List (ℝ × ℝ) :=
  (List.range (numPoints * 2)).map (fun (i : ℕ) =>
    let innerRadius := outerRadius * innerRadiusRatio
    let angleStep : ℝ := Real.pi / numPoints
    let startAngle : ℝ := rotationDeg * Real.pi / 180 - Real.pi / 2
    let angle := startAngle + (i : ℝ) * angleStep
    let r := if i % 2 = 0 then outerRadius else innerRadius
    (cx + r * Real.cos angle, cy + r * Real.sin angle))

/-- Euclidean distance of a point from a center, for the distance claims
about star vertices. -/
noncomputable def distToCenter (cx cy : ℝ) (p : ℝ × ℝ) : ℝ :=
  Real.sqrt ((p.1 - cx) ^ 2 + (p.2 - cy) ^ 2)

/-! Rectangle canvas render (src/rect.ts `render`): the constructed path. -/

structure LayerBounds where
  x : ℚ
  y : ℚ
  width : ℚ
  height : ℚ
  rotation : ℚ
  scaleX : ℚ
  scaleY : ℚ
deriving DecidableEq, Repr

inductive RectPath where
  | roundRect (x y w h r : ℚ)
  | rect (x y w h : ℚ)
deriving DecidableEq, Repr

/-- The path drawn by `rectLayerType.render`: `Math.min(a, b, c)` is the
nested binary minimum.  `none` when the stored cornerRadius is a
non-number (see `getNumOr`). -/
def rectRenderPath (properties : Props) (bounds : LayerBounds) : Option RectPath :=
  (getNumOr properties "cornerRadius" 0).map (fun cornerRadius =>
    if 0 < cornerRadius then
      RectPath.roundRect bounds.x bounds.y bounds.width bounds.height
        (min cornerRadius (min (bounds.width / 2) (bounds.height / 2)))
    else
      RectPath.rect bounds.x bounds.y bounds.width bounds.height)

/-! Dash-pattern handling of the line canvas render (src/line.ts). -/

def isJsWhitespace (c : Char) : Bool :=
  c = ' ' || c = '\t' || c = '\n' || c = '\r'

def jsTrim (cs : List Char) : List Char :=
  ((cs.dropWhile isJsWhitespace).reverse.dropWhile isJsWhitespace).reverse

/-- The numeric value of a digit run, most significant first. -/
def digitsVal (cs : List Char) : ℕ :=
  cs.foldl (fun a c => a * 10 + (c.toNat - Char.toNat '0')) 0

/-- Character-level parse behind JS `Number(string)`: `(negative, integer
part, fraction digits, fraction length)`, or `none` for NaN.  The input is
already trimmed; the empty string parses as 0. -/
def jsParseDecimal (cs : List Char) : Option (Bool × ℕ × ℕ × ℕ) :=
  if cs = [] then some (false, 0, 0, 0)
  else
    let signed : Bool × List Char :=
      match cs with
      | '-' :: t => (true, t)
      | '+' :: t => (false, t)
      | t => (false, t)
    let intPart := signed.2.takeWhile Char.isDigit
    let rest := signed.2.dropWhile Char.isDigit
    match rest with
    | [] => if intPart = [] then none else some (signed.1, digitsVal intPart, 0, 0)
    | '.' :: frac =>
        if frac.all Char.isDigit ∧ (intPart ≠ [] ∨ frac ≠ []) then
          some (signed.1, digitsVal intPart, digitsVal frac, frac.length)
        else none
    | _ => none

/-- JS `Number(string)` on the decimal forms: surrounding whitespace is
trimmed, the empty/blank string is 0, an optional sign precedes digits with
an optional fraction, anything else is NaN (`none`).  The exotic JS forms
(exponent, hex/octal/binary, Infinity) are not modelled; no dash-pattern
claim exercises them. -/
def jsNumberChars (cs : List Char) : Option ℚ :=
  (jsParseDecimal (jsTrim cs)).map (fun r =>
    (if r.1 then (-1 : ℚ) else 1) * ((r.2.1 : ℚ) + (r.2.2.1 : ℚ) / 10 ^ r.2.2.2))

/-- JS `String.prototype.split` with a one-character separator, over the
character list ("a,,b" gives ["a","","b"], "" gives [""]). -/
def splitOnChar (sep : Char) (cs : List Char) : List (List Char) :=
  cs.foldr (fun ch acc =>
    match acc with
    | [] => [[ch]]
    | g :: gs => if ch = sep then [] :: g :: gs else (ch :: g) :: gs) [[]]

/-- The surviving dash values:
`dashStr.split(",").map(Number).filter((n) => !isNaN(n) && n > 0)`. -/
def lineDashes (dashStr : String) : List ℚ :=
  ((splitOnChar ',' dashStr.toList).filterMap jsNumberChars).filter (fun n => 0 < n)

/-- The `setLineDash` invocation of `lineLayerType.render`: `none` means the
stroke stays solid.  The outer guard is JS string truthiness
(`if (dashStr)`), the inner one is `if (dashes.length > 0)`. -/
def lineDashCommand (dashStr : String) : Option (List ℚ) :=
  if dashStr = "" then none
  else if lineDashes dashStr = [] then none
  else some (lineDashes dashStr)

/-! Tool handlers (src/shape-tools.ts).  Layer ids come from
`generateLayerId()` (timestamp + randomness), so the handlers are
parametrized by the generated id.  Host effects are recorded, not
performed: `added` collects the arguments of `layers.add`, `updated` those
of `layers.updateProperties`, `emitted` those of `emitChange`. -/

structure LayerTransform where
  x : ℚ
  y : ℚ
  width : ℚ
  height : ℚ
  rotation : ℚ
  scaleX : ℚ
  scaleY : ℚ
  anchorX : ℚ
  anchorY : ℚ
deriving DecidableEq, Repr

structure DesignLayer where
  id : String
  type : String
  name : String
  visible : Bool
  locked : Bool
  opacity : ℚ
  blendMode : String
  transform : LayerTransform
  properties : Props
deriving DecidableEq, Repr

/-- An McpToolResult: `content` is always a single text item here, so it is
modelled as the text alone, plus the `isError` flag (absent = false). -/
structure McpToolResult where
  text : String
  isError : Bool
deriving DecidableEq, Repr

def textResult (t : String) : McpToolResult := ⟨t, false⟩

def errorResult (t : String) : McpToolResult := ⟨t, true⟩

structure ToolOutcome where
  result : McpToolResult
  added : List DesignLayer
  updated : List (String × Props)
  emitted : List String
deriving DecidableEq, Repr

/-- An outcome that touched no host state. -/
def pureOutcome (r : McpToolResult) : ToolOutcome := ⟨r, [], [], []⟩

/-- The SHAPE_TYPES record of src/shape-tools.ts: line is deliberately
absent. -/
def SHAPE_TYPES (k : String) : Option ShapeType :=
  if k = "rect" then some ShapeType.rect
  else if k = "ellipse" then some ShapeType.ellipse
  else if k = "polygon" then some ShapeType.polygon
  else if k = "star" then some ShapeType.star
  else none

/-- `context.layers.get` of the host accessor: lookup by layer id. -/
def layersGet (stack : List DesignLayer) (id : String) : Option DesignLayer :=
  stack.find? (fun l => l.id = id)

/-- `String.prototype.startsWith`, over the character lists. -/
def startsWithChars : List Char → List Char → Bool
  | _, [] => true
  | [], _ :: _ => false
  | c :: cs, p :: ps => c = p && startsWithChars cs ps

def strStartsWith (s p : String) : Bool := startsWithChars s.toList p.toList

/-- The `add_shape` input record, restricted to the keys the handler reads;
a `none` field is a key absent from the input. -/
structure AddShapeInput where
  shape : Option String
  x : Option ℚ
  y : Option ℚ
  width : Option ℚ
  height : Option ℚ
  fillColor : Option String
  strokeColor : Option String
  strokeWidth : Option ℚ
  sides : Option ℚ
  points : Option ℚ
  cornerRadius : Option ℚ
deriving DecidableEq, Repr

/-- `addShapeTool.handler`.  `input.shape as string` on an absent key is
`undefined`, which stringifies to "undefined" in the error message and
misses every SHAPE_TYPES key. -/
def addShapeHandler (input : AddShapeInput) (id : String) : ToolOutcome :=
  let shapeKey := input.shape.getD "undefined"
  match SHAPE_TYPES shapeKey with
  | none => pureOutcome (errorResult ("Unknown shape type \x27" ++ shapeKey ++ "\x27."))
  | some shapeDef =>
    let defaults := createDefault shapeDef
    let p1 := match input.fillColor with
      | some c => setProp defaults "fillColor" (PropValue.str c)
      | none => defaults
    let p2 := match input.strokeColor with
      | some c => setProp p1 "strokeColor" (PropValue.str c)
      | none => p1
    let p3 := match input.strokeWidth with
      | some w => setProp (setProp p2 "strokeWidth" (PropValue.num w))
          "strokeEnabled" (PropValue.bool (decide (0 < w)))
      | none => p2
    let p4 := match input.sides with
      | some n => setProp p3 "sides" (PropValue.num n)
      | none => p3
    let p5 := match input.points with
      | some n => setProp p4 "points" (PropValue.num n)
      | none => p4
    let properties := match input.cornerRadius with
      | some n => setProp p5 "cornerRadius" (PropValue.num n)
      | none => p5
    let transform : LayerTransform :=
      ⟨input.x.getD 100, input.y.getD 100, input.width.getD 200, input.height.getD 200,
        0, 1, 1, 0.5, 0.5⟩
    let layer : DesignLayer :=
      ⟨id, typeId shapeDef, displayName shapeDef, true, false, 1, "normal", transform, properties⟩
    ⟨textResult ("Added " ++ displayName shapeDef ++ " layer \x27" ++ id ++ "\x27."),
      [layer], [], ["layer-added"]⟩

/-- The `set_shape_style` input record, restricted to the keys the handler
reads. -/
structure SetShapeStyleInput where
  layerId : Option String
  fillColor : Option String
  fillEnabled : Option Bool
  strokeColor : Option String
  strokeWidth : Option ℚ
  strokeEnabled : Option Bool
deriving DecidableEq, Repr

/-- `setShapeStyleTool.handler`.  The updates record collects the present
input keys in the handler's fixed key order. -/
def setShapeStyleHandler (input : SetShapeStyleInput) (stack : List DesignLayer) :
    ToolOutcome :=
  let layerId := input.layerId.getD "undefined"
  match layersGet stack layerId with
  | none => pureOutcome (errorResult ("Layer \x27" ++ layerId ++ "\x27 not found."))
  | some layer =>
    if ¬ strStartsWith layer.type "shapes:" then
      pureOutcome (errorResult ("Layer \x27" ++ layerId ++ "\x27 is not a shape layer."))
    else
      let updates : Props :=
        (match input.fillColor with
          | some c => [("fillColor", PropValue.str c)] | none => []) ++
        (match input.fillEnabled with
          | some b => [("fillEnabled", PropValue.bool b)] | none => []) ++
        (match input.strokeColor with
          | some c => [("strokeColor", PropValue.str c)] | none => []) ++
        (match input.strokeWidth with
          | some w => [("strokeWidth", PropValue.num w)] | none => []) ++
        (match input.strokeEnabled with
          | some b => [("strokeEnabled", PropValue.bool b)] | none => [])
      if updates = [] then
        pureOutcome (errorResult "No style properties provided.")
      else
        ⟨textResult ("Updated style on shape layer \x27" ++ layerId ++ "\x27."),
          [], [(layerId, updates)], ["layer-updated"]⟩

/-- The `set_polygon` input record, restricted to the keys the handler
reads. -/
structure SetPolygonInput where
  layerId : Option String
  sides : Option ℚ
  rotation : Option ℚ
deriving DecidableEq, Repr

/-- `setPolygonTool.handler`.  Note: unlike `set_shape_style`, there is no
emptiness check on the collected updates. -/
def setPolygonHandler (input : SetPolygonInput) (stack : List DesignLayer) :
    ToolOutcome :=
  let layerId := input.layerId.getD "undefined"
  match layersGet stack layerId with
  | none => pureOutcome (errorResult ("Layer \x27" ++ layerId ++ "\x27 not found."))
  | some layer =>
    if layer.type ≠ "shapes:polygon" then
      pureOutcome (errorResult ("Layer \x27" ++ layerId ++ "\x27 is not a polygon layer."))
    else
      let updates : Props :=
        (match input.sides with
          | some n => [("sides", PropValue.num n)] | none => []) ++
        (match input.rotation with
          | some n => [("rotation", PropValue.num n)] | none => [])
      ⟨textResult ("Updated polygon layer \x27" ++ layerId ++ "\x27."),
        [], [(layerId, updates)], ["layer-updated"]⟩

/-- The `add_line` input record, restricted to the keys the handler
reads. -/
structure AddLineInput where
  x1 : Option ℚ
  y1 : Option ℚ
  x2 : Option ℚ
  y2 : Option ℚ
  strokeColor : Option String
  strokeWidth : Option ℚ
deriving DecidableEq, Repr

/-- `addLineTool.handler`.  The success text interpolates the endpoint
numbers; rational `toString` stands in for JS number formatting, which no
claim inspects. -/
def addLineHandler (input : AddLineInput) (id : String) : ToolOutcome :=
  let x1 := input.x1.getD 0
  let y1 := input.y1.getD 0
  let x2 := input.x2.getD 200
  let y2 := input.y2.getD 200
  let defaults := createDefault ShapeType.line
  let p1 := match input.strokeColor with
    | some c => setProp defaults "strokeColor" (PropValue.str c)
    | none => defaults
  let properties := match input.strokeWidth with
    | some w => setProp p1 "strokeWidth" (PropValue.num w)
    | none => p1
  let transform : LayerTransform := ⟨x1, y1, x2 - x1, y2 - y1, 0, 1, 1, 0, 0⟩
  let layer : DesignLayer :=
    ⟨id, "shapes:line", "Line", true, false, 1, "normal", transform, properties⟩
  ⟨textResult ("Added line layer \x27" ++ id ++ "\x27 from (" ++ toString x1 ++ "," ++
      toString y1 ++ ") to (" ++ toString x2 ++ "," ++ toString y2 ++ ")."),
    [layer], [], ["layer-added"]⟩

/-! Theorems. -/

/-- A point at signed radius `r` and angle `θ` from a center is at Euclidean
distance `r` from it when `r` is nonnegative. -/
theorem distToCenter_radial (cx cy r θ : ℝ) (hr : 0 ≤ r) :
    distToCenter cx cy (cx + r * Real.cos θ, cy + r * Real.sin θ) = r := by
  unfold distToCenter
  have h1 : (cx + r * Real.cos θ - cx) ^ 2 + (cy + r * Real.sin θ - cy) ^ 2 = r ^ 2 := by
    have h := Real.sin_sq_add_cos_sq θ
    nlinarith [h]
  rw [h1, Real.sqrt_sq hr]

/-- C1: for every center `(cx, cy)`, radius `r`, integer `sides ≥ 3` and
rotation in degrees, `polygonPoints` returns exactly `sides` vertices, and
vertex `i` equals
`(cx + r·cos(start + i·(2π/sides)), cy + r·sin(start + i·(2π/sides)))`
with `start = rotation·π/180 − π/2`; in particular at rotation 0 vertex 0
is the topmost point `(cx, cy − r)` (12 o'clock in y-down screen
coordinates). -/
theorem polygonPoints_spec (cx cy r : ℝ) (sides : ℕ) (rot : ℝ) (h3 : 3 ≤ sides) :
    (polygonPoints cx cy r sides rot).length = sides ∧
    (∀ i : ℕ, i < sides →
      (polygonPoints cx cy r sides rot)[i]? =
        some (cx + r * Real.cos (rot * Real.pi / 180 - Real.pi / 2 + i * (2 * Real.pi / sides)),
              cy + r * Real.sin (rot * Real.pi / 180 - Real.pi / 2 + i * (2 * Real.pi / sides)))) ∧
    (polygonPoints cx cy r sides 0)[0]? = some (cx, cy - r) := by
  refine ⟨by simp [polygonPoints], ?_, ?_⟩
  · intro i hi
    simp only [polygonPoints, List.getElem?_map, List.getElem?_range, hi, if_true,
      Option.map_some']
    have hc : Real.pi * 2 / (sides : ℝ) = 2 * Real.pi / (sides : ℝ) := by ring
    rw [hc]
  · have h0 : 0 < sides := by omega
    simp only [polygonPoints, List.getElem?_map, List.getElem?_range, h0, if_true,
      Option.map_some', Nat.cast_zero, zero_mul, add_zero]
    have hc : (0 : ℝ) / 180 - Real.pi / 2 = -(Real.pi / 2) := by ring
    rw [hc]
    simp only [Real.cos_neg, Real.cos_pi_div_two, Real.sin_neg, Real.sin_pi_div_two,
      mul_zero, add_zero, mul_neg, mul_one]
    rw [sub_eq_add_neg]

/-- Witness for `polygonPoints_spec` at a concrete input. -/
theorem polygonPoints_spec_witness : (polygonPoints 0 0 1 5 0).length = 5 :=
  (polygonPoints_spec 0 0 1 5 0 (by norm_num)).1

/-- C2 as stated: for every center, outer radius, inner-radius ratio,
integer `numPoints ≥ 3` and rotation, `starPoints` returns `2·numPoints`
vertices at angles `start + i·(π/numPoints)` with the polygon start
convention, every even-indexed vertex at Euclidean distance `outerRadius`
from the center and every odd-indexed one at distance
`outerRadius·innerRadiusRatio`. -/
def starPointsClaim : Prop :=
  ∀ (cx cy R ratio : ℝ) (n : ℕ) (rot : ℝ), 3 ≤ n →
    (starPoints cx cy R ratio n rot).length = 2 * n ∧
    ∀ i : ℕ, i < 2 * n →
      (starPoints cx cy R ratio n rot)[i]? =
        some (cx + (if i % 2 = 0 then R else R * ratio) *
                Real.cos (rot * Real.pi / 180 - Real.pi / 2 + i * (Real.pi / n)),
              cy + (if i % 2 = 0 then R else R * ratio) *
                Real.sin (rot * Real.pi / 180 - Real.pi / 2 + i * (Real.pi / n))) ∧
      ∀ p, (starPoints cx cy R ratio n rot)[i]? = some p →
        distToCenter cx cy p = (if i % 2 = 0 then R else R * ratio)

/-- C2 fails as stated: a distance is never negative, so for the (unvalidated)
input `outerRadius = −1` the even vertices lie at distance `1`, not `−1`. -/
theorem starPointsClaim_counterexample : ¬ starPointsClaim := by
  intro h
  obtain ⟨-, h2⟩ := h 0 0 (-1) (1 / 2) 3 0 (by norm_num)
  obtain ⟨hpt, hdist⟩ := h2 0 (by norm_num)
  obtain ⟨q, hq⟩ : ∃ q, (starPoints 0 0 (-1) (1 / 2) 3 0)[0]? = some q := ⟨_, hpt⟩
  have hd := hdist q hq
  have h0 : (0 : ℝ) ≤ distToCenter 0 0 q := Real.sqrt_nonneg _
  rw [hd] at h0
  norm_num at h0

/-- C2 amended: the same statement under the nonnegativity the geometry
needs (`0 ≤ outerRadius` and `0 ≤ innerRadiusRatio`, both guaranteed by the
callers and validators): exactly `2·numPoints` vertices, step
`π/numPoints` from `start = rotation·π/180 − π/2`, even vertices at
distance `outerRadius`, odd ones at distance
`outerRadius·innerRadiusRatio`. -/
theorem starPoints_spec (cx cy R ratio : ℝ) (n : ℕ) (rot : ℝ)
    (h3 : 3 ≤ n) (hR : 0 ≤ R) (hratio : 0 ≤ ratio) :
    (starPoints cx cy R ratio n rot).length = 2 * n ∧
    ∀ i : ℕ, i < 2 * n →
      (starPoints cx cy R ratio n rot)[i]? =
        some (cx + (if i % 2 = 0 then R else R * ratio) *
                Real.cos (rot * Real.pi / 180 - Real.pi / 2 + i * (Real.pi / n)),
              cy + (if i % 2 = 0 then R else R * ratio) *
                Real.sin (rot * Real.pi / 180 - Real.pi / 2 + i * (Real.pi / n))) ∧
      ∀ p, (starPoints cx cy R ratio n rot)[i]? = some p →
        distToCenter cx cy p = (if i % 2 = 0 then R else R * ratio) := by
  have hlen : (starPoints cx cy R ratio n rot).length = 2 * n := by
    simp [starPoints, Nat.mul_comm]
  refine ⟨hlen, ?_⟩
  intro i hi
  have hi' : i < n * 2 := by omega
  have hpt : (starPoints cx cy R ratio n rot)[i]? =
      some (cx + (if i % 2 = 0 then R else R * ratio) *
              Real.cos (rot * Real.pi / 180 - Real.pi / 2 + i * (Real.pi / n)),
            cy + (if i % 2 = 0 then R else R * ratio) *
              Real.sin (rot * Real.pi / 180 - Real.pi / 2 + i * (Real.pi / n))) := by
    simp only [starPoints, List.getElem?_map, List.getElem?_range, hi', if_true,
      Option.map_some']
  refine ⟨hpt, ?_⟩
  intro p hp
  rw [hpt] at hp
  obtain rfl := Option.some_injective _ hp.symm
  have hr : 0 ≤ (if i % 2 = 0 then R else R * ratio) := by
    split
    · exact hR
    · exact mul_nonneg hR hratio
  exact distToCenter_radial cx cy _ _ hr

/-- Witness for `starPoints_spec` at a concrete input. -/
theorem starPoints_spec_witness : (starPoints 0 0 1 (1 / 2) 3 0).length = 2 * 3 :=
  (starPoints_spec 0 0 1 (1 / 2) 3 0 (by norm_num) (by norm_num) (by norm_num)).1

/-- C3: for each of the five layer types, `createDefault()` returns a
property bag whose key list is exactly the declared schema key list, with
every key mapped to that schema entry's declared default value. -/
theorem createDefault_spec :
    ∀ t : ShapeType,
      (createDefault t).map Prod.fst = (propertiesOf t).map LayerPropertySchema.key ∧
      ∀ s ∈ propertiesOf t, getProp (createDefault t) s.key = some s.default := by
  intro t
  cases t <;> refine ⟨rfl, ?_⟩ <;> intro s hs <;> fin_cases hs <;> rfl

/-- Witness for `createDefault_spec` at a concrete input. -/
theorem createDefault_spec_witness :
    getProp (createDefault ShapeType.rect) "cornerRadius" = some (PropValue.num 0) :=
  (createDefault_spec ShapeType.rect).2
    ⟨"cornerRadius", "Corner Radius", "number", PropValue.num 0, some 0, some 500, some 1,
      "shape", []⟩
    (by simp [propertiesOf, RECT_PROPERTIES, COMMON_SHAPE_PROPERTIES])

/-- C4: the rectangle canvas render draws a rounded rectangle with
effective corner radius `min(cornerRadius, width/2, height/2)` when the
resolved cornerRadius is positive, and the plain axis-aligned bounds
rectangle otherwise; with bounds (0,0,40,100) and cornerRadius 100 the
effective radius is 20. -/
theorem rectRenderPath_spec :
    (∀ (props : Props) (bounds : LayerBounds) (cr : ℚ),
      getNumOr props "cornerRadius" 0 = some cr →
      rectRenderPath props bounds =
        some (if 0 < cr then
                RectPath.roundRect bounds.x bounds.y bounds.width bounds.height
                  (min cr (min (bounds.width / 2) (bounds.height / 2)))
              else RectPath.rect bounds.x bounds.y bounds.width bounds.height)) ∧
    rectRenderPath [("cornerRadius", PropValue.num 100)] ⟨0, 0, 40, 100, 0, 1, 1⟩ =
      some (RectPath.roundRect 0 0 40 100 20) := by
  constructor
  · intro props bounds cr h
    simp [rectRenderPath, h]
  · have hg : getNumOr [("cornerRadius", PropValue.num 100)] "cornerRadius" 0 = some 100 := rfl
    simp only [rectRenderPath, hg, Option.map_some', Option.some.injEq]
    rw [if_pos (by norm_num : (0 : ℚ) < 100)]
    norm_num [min_def]

/-- Witness for `rectRenderPath_spec` at a concrete input. -/
theorem rectRenderPath_spec_witness :
    rectRenderPath [("cornerRadius", PropValue.num 10)] ⟨0, 0, 200, 200, 0, 1, 1⟩ =
      some (RectPath.roundRect 0 0 200 200 10) := by
  have h := rectRenderPath_spec.1 [("cornerRadius", PropValue.num 10)]
    ⟨0, 0, 200, 200, 0, 1, 1⟩ 10 rfl
  rw [h, if_pos (by norm_num : (0 : ℚ) < 10)]
  norm_num [min_def]

/-- C5: the line render splits dashPattern on commas, JS-parses each piece
as a number, discards entries that are NaN or nonpositive, and applies a
dash sequence exactly when at least one value survives (solid stroke
otherwise); "5,3" gives segments [5,3] and "0,-2,abc" gives no dash
call. -/
theorem lineDash_spec :
    lineDashCommand "5,3" = some [5, 3] ∧
    lineDashCommand "0,-2,abc" = none ∧
    (∀ s : String, lineDashes s = [] → lineDashCommand s = none) ∧
    (∀ s : String, lineDashes s ≠ [] → lineDashCommand s = some (lineDashes s)) := by
  have h5 : jsNumberChars ['5'] = some 5 := by
    have hp : jsParseDecimal (jsTrim ['5']) = some (false, 5, 0, 0) := by decide
    simp only [jsNumberChars, hp, Option.map_some']
    norm_num
  have h3 : jsNumberChars ['3'] = some 3 := by
    have hp : jsParseDecimal (jsTrim ['3']) = some (false, 3, 0, 0) := by decide
    simp only [jsNumberChars, hp, Option.map_some']
    norm_num
  have h0 : jsNumberChars ['0'] = some 0 := by
    have hp : jsParseDecimal (jsTrim ['0']) = some (false, 0, 0, 0) := by decide
    simp only [jsNumberChars, hp, Option.map_some']
    norm_num
  have hm2 : jsNumberChars ['-', '2'] = some (-2) := by
    have hp : jsParseDecimal (jsTrim ['-', '2']) = some (true, 2, 0, 0) := by decide
    simp only [jsNumberChars, hp, Option.map_some']
    norm_num
  have habc : jsNumberChars ['a', 'b', 'c'] = none := by
    have hp : jsParseDecimal (jsTrim ['a', 'b', 'c']) = none := by decide
    simp only [jsNumberChars, hp, Option.map_none']
  have hA : lineDashes "5,3" = [5, 3] := by
    have ht : splitOnChar ',' "5,3".toList = [['5'], ['3']] := by decide
    simp only [lineDashes, ht, List.filterMap_cons, h5, h3, List.filterMap_nil]
    norm_num [List.filter]
  have hB : lineDashes "0,-2,abc" = [] := by
    have ht : splitOnChar ',' "0,-2,abc".toList = [['0'], ['-', '2'], ['a', 'b', 'c']] := by
      decide
    simp only [lineDashes, ht, List.filterMap_cons, h0, hm2, habc, List.filterMap_nil]
    norm_num [List.filter]
  have hE : lineDashes "" = [] := by
    have ht : splitOnChar ',' "".toList = [[]] := by decide
    have hn : jsNumberChars [] = some 0 := by
      have hp : jsParseDecimal (jsTrim []) = some (false, 0, 0, 0) := by decide
      simp only [jsNumberChars, hp, Option.map_some']
      norm_num
    simp only [lineDashes, ht, List.filterMap_cons, hn, List.filterMap_nil]
    norm_num [List.filter]
  refine ⟨?_, ?_, ?_, ?_⟩
  · have hne : "5,3" ≠ "" := by decide
    simp only [lineDashCommand, hA, if_neg hne]
    simp
  · have hne : "0,-2,abc" ≠ "" := by decide
    simp only [lineDashCommand, hB, if_neg hne]
    simp
  · intro s h
    simp [lineDashCommand, h]
  · intro s h
    have hs : s ≠ "" := by
      intro he
      subst he
      exact h hE
    unfold lineDashCommand
    rw [if_neg hs, if_neg h]

/-- Witness for `lineDash_spec` at a concrete input. -/
theorem lineDash_spec_witness : lineDashCommand "7" = some [7] := by
  have h7 : lineDashes "7" = [7] := by
    have ht : splitOnChar ',' "7".toList = [['7']] := by decide
    have hn : jsNumberChars ['7'] = some 7 := by
      have hp : jsParseDecimal (jsTrim ['7']) = some (false, 7, 0, 0) := by decide
      simp only [jsNumberChars, hp, Option.map_some']
      norm_num
    simp only [lineDashes, ht, List.filterMap_cons, hn, List.filterMap_nil]
    norm_num [List.filter]
  have h := lineDash_spec.2.2.2 "7" (by rw [h7]; simp)
  rw [h, h7]

/-- C6: `add_shape` with a shape kind outside the registered set returns an
error-flagged result and performs no layer-stack mutation and no change
emission (neither `layers.add` nor `emitChange` is invoked); in particular
for "hexaflop". -/
theorem addShape_unknown_spec :
    (∀ (input : AddShapeInput) (id : String),
      SHAPE_TYPES (input.shape.getD "undefined") = none →
      (addShapeHandler input id).result.isError = true ∧
      (addShapeHandler input id).added = [] ∧
      (addShapeHandler input id).updated = [] ∧
      (addShapeHandler input id).emitted = []) ∧
    addShapeHandler ⟨some "hexaflop", none, none, none, none, none, none, none, none, none, none⟩
        "layer-1" =
      pureOutcome (errorResult "Unknown shape type \x27hexaflop\x27.") := by
  constructor
  · intro input id h
    simp [addShapeHandler, h, pureOutcome, errorResult]
  · decide

/-- Witness for `addShape_unknown_spec` at a concrete input. -/
theorem addShape_unknown_spec_witness :
    (addShapeHandler ⟨some "blob", none, none, none, none, none, none, none, none, none, none⟩
        "layer-2").added = [] :=
  (addShape_unknown_spec.1
    ⟨some "blob", none, none, none, none, none, none, none, none, none, none⟩
    "layer-2" (by decide)).2.1

/-! Association-list lemmas for the property-bag merge of `add_shape`. -/

/-- Reading from a cons cell: the head if its key matches, else the tail. -/
theorem getProp_cons (a : String × PropValue) (t : Props) (k : String) :
    getProp (a :: t) k = if a.1 = k then some a.2 else getProp t k := by
  unfold getProp
  by_cases ha : a.1 = k
  · rw [List.find?_cons_of_pos _ (by simpa using ha), if_pos ha]
    rfl
  · rw [List.find?_cons_of_neg _ (by simpa using ha), if_neg ha]

theorem getProp_map_set_ne (ps : Props) (k k' : String) (v : PropValue) (h : k' ≠ k) :
    getProp (ps.map (fun kv => if kv.1 = k then (k, v) else kv)) k' = getProp ps k' := by
  induction ps with
  | nil => rfl
  | cons a t ih =>
    simp only [List.map_cons]
    by_cases ha : a.1 = k
    · rw [if_pos ha, getProp_cons, getProp_cons, if_neg (by simpa using Ne.symm h),
        if_neg (fun he => h (ha.symm.trans he).symm)]
      exact ih
    · rw [if_neg ha, getProp_cons, getProp_cons]
      by_cases ha' : a.1 = k'
      · rw [if_pos ha', if_pos ha']
      · rw [if_neg ha', if_neg ha']
        exact ih

theorem getProp_append_single_ne (ps : Props) (k k' : String) (v : PropValue) (h : k' ≠ k) :
    getProp (ps ++ [(k, v)]) k' = getProp ps k' := by
  induction ps with
  | nil =>
    rw [List.nil_append, getProp_cons, if_neg (by simpa using Ne.symm h)]
  | cons a t ih =>
    rw [List.cons_append, getProp_cons, getProp_cons]
    by_cases ha' : a.1 = k'
    · rw [if_pos ha', if_pos ha']
    · rw [if_neg ha', if_neg ha']
      exact ih

/-- Writing a key then reading a different key reads the original bag. -/
theorem getProp_setProp_ne (ps : Props) (k k' : String) (v : PropValue) (h : k' ≠ k) :
    getProp (setProp ps k v) k' = getProp ps k' := by
  unfold setProp
  split
  · exact getProp_map_set_ne ps k k' v h
  · exact getProp_append_single_ne ps k k' v h

theorem getProp_map_set_self (ps : Props) (k : String) (v : PropValue)
    (hany : ps.any (fun kv => kv.1 = k) = true) :
    getProp (ps.map (fun kv => if kv.1 = k then (k, v) else kv)) k = some v := by
  induction ps with
  | nil => simp at hany
  | cons a t ih =>
    simp only [List.map_cons]
    by_cases ha : a.1 = k
    · rw [if_pos ha, getProp_cons, if_pos rfl]
    · rw [if_neg ha, getProp_cons, if_neg ha]
      simp only [List.any_cons, Bool.or_eq_true, decide_eq_true_eq] at hany
      exact ih (by simpa using hany.resolve_left ha)

theorem getProp_append_single_self (ps : Props) (k : String) (v : PropValue)
    (hany : ¬ ps.any (fun kv => kv.1 = k) = true) :
    getProp (ps ++ [(k, v)]) k = some v := by
  induction ps with
  | nil => rw [List.nil_append, getProp_cons, if_pos rfl]
  | cons a t ih =>
    simp only [List.any_cons, Bool.or_eq_true, decide_eq_true_eq, not_or] at hany
    rw [List.cons_append, getProp_cons, if_neg hany.1]
    exact ih (by simpa using hany.2)

/-- Writing a key then reading it back yields the written value. -/
theorem getProp_setProp_self (ps : Props) (k : String) (v : PropValue) :
    getProp (setProp ps k v) k = some v := by
  unfold setProp
  split
  case isTrue hany => exact getProp_map_set_self ps k v hany
  case isFalse hany => exact getProp_append_single_self ps k v hany

/-- C7 as stated: whenever the referenced layer exists and has the expected
type but the input supplies no recognized update field, both
`set_shape_style` and `set_polygon` return an error-flagged result and
invoke neither `layers.updateProperties` nor `emitChange`. -/
def emptyUpdateRejectedClaim : Prop :=
  (∀ (input : SetShapeStyleInput) (stack : List DesignLayer) (layer : DesignLayer),
    layersGet stack (input.layerId.getD "undefined") = some layer →
    strStartsWith layer.type "shapes:" = true →
    input.fillColor = none → input.fillEnabled = none → input.strokeColor = none →
    input.strokeWidth = none → input.strokeEnabled = none →
    (setShapeStyleHandler input stack).result.isError = true ∧
    (setShapeStyleHandler input stack).updated = [] ∧
    (setShapeStyleHandler input stack).emitted = []) ∧
  (∀ (input : SetPolygonInput) (stack : List DesignLayer) (layer : DesignLayer),
    layersGet stack (input.layerId.getD "undefined") = some layer →
    layer.type = "shapes:polygon" →
    input.sides = none → input.rotation = none →
    (setPolygonHandler input stack).result.isError = true ∧
    (setPolygonHandler input stack).updated = [] ∧
    (setPolygonHandler input stack).emitted = [])

/-- C7 fails as stated: `set_polygon` has no emptiness check, so on an
existing polygon layer and an input with neither `sides` nor `rotation` it
reports success, invokes `updateProperties` with an empty record, and emits
a change. -/
theorem emptyUpdateRejectedClaim_counterexample : ¬ emptyUpdateRejectedClaim := by
  intro h
  have h2 := (h.2 ⟨some "p1", none, none⟩
    [⟨"p1", "shapes:polygon", "Polygon", true, false, 1, "normal",
      ⟨0, 0, 200, 200, 0, 1, 1, 0.5, 0.5⟩, []⟩]
    ⟨"p1", "shapes:polygon", "Polygon", true, false, 1, "normal",
      ⟨0, 0, 200, 200, 0, 1, 1, 0.5, 0.5⟩, []⟩
    rfl rfl rfl rfl).1
  have hact : (setPolygonHandler ⟨some "p1", none, none⟩
      [⟨"p1", "shapes:polygon", "Polygon", true, false, 1, "normal",
        ⟨0, 0, 200, 200, 0, 1, 1, 0.5, 0.5⟩, []⟩]).result.isError = false := rfl
  exact Bool.false_ne_true (hact.symm.trans h2)

/-- C7 amended: `set_shape_style` does reject an empty update set with an
error and no host invocation, but `set_polygon` does not: on an existing
polygon layer with neither `sides` nor `rotation` supplied it succeeds,
invoking `updateProperties` with an empty update record and emitting
"layer-updated". -/
theorem emptyUpdate_spec :
    (∀ (input : SetShapeStyleInput) (stack : List DesignLayer) (layer : DesignLayer),
      layersGet stack (input.layerId.getD "undefined") = some layer →
      strStartsWith layer.type "shapes:" = true →
      input.fillColor = none → input.fillEnabled = none → input.strokeColor = none →
      input.strokeWidth = none → input.strokeEnabled = none →
      setShapeStyleHandler input stack =
        pureOutcome (errorResult "No style properties provided.")) ∧
    (∀ (input : SetPolygonInput) (stack : List DesignLayer) (layer : DesignLayer),
      layersGet stack (input.layerId.getD "undefined") = some layer →
      layer.type = "shapes:polygon" →
      input.sides = none → input.rotation = none →
      setPolygonHandler input stack =
        ⟨textResult ("Updated polygon layer \x27" ++ input.layerId.getD "undefined" ++ "\x27."),
          [], [(input.layerId.getD "undefined", [])], ["layer-updated"]⟩) := by
  constructor
  · intro input stack layer hget hstart hfc hfe hsc hsw hse
    simp [setShapeStyleHandler, hget, hstart, hfc, hfe, hsc, hsw, hse]
  · intro input stack layer hget hty hsides hrot
    simp [setPolygonHandler, hget, hty, hsides, hrot]

/-- Witness for `emptyUpdate_spec` at concrete inputs. -/
theorem emptyUpdate_spec_witness :
    setShapeStyleHandler ⟨some "s1", none, none, none, none, none⟩
        [⟨"s1", "shapes:rect", "Rectangle", true, false, 1, "normal",
          ⟨0, 0, 200, 200, 0, 1, 1, 0.5, 0.5⟩, []⟩] =
      pureOutcome (errorResult "No style properties provided.") ∧
    setPolygonHandler ⟨some "p1", none, none⟩
        [⟨"p1", "shapes:polygon", "Polygon", true, false, 1, "normal",
          ⟨0, 0, 200, 200, 0, 1, 1, 0.5, 0.5⟩, []⟩] =
      ⟨textResult "Updated polygon layer \x27p1\x27.", [], [("p1", [])], ["layer-updated"]⟩ := by
  constructor
  · exact emptyUpdate_spec.1 ⟨some "s1", none, none, none, none, none⟩ _
      ⟨"s1", "shapes:rect", "Rectangle", true, false, 1, "normal",
        ⟨0, 0, 200, 200, 0, 1, 1, 0.5, 0.5⟩, []⟩ rfl rfl rfl rfl rfl rfl rfl
  · exact emptyUpdate_spec.2 ⟨some "p1", none, none⟩ _
      ⟨"p1", "shapes:polygon", "Polygon", true, false, 1, "normal",
        ⟨0, 0, 200, 200, 0, 1, 1, 0.5, 0.5⟩, []⟩ rfl rfl rfl rfl

/-- The property keys the `add_shape` handler overrides for the fields
present in the input (x/y/width/height go to the transform, not the
property bag). -/
def overriddenKeys (input : AddShapeInput) : List String :=
  (if input.fillColor.isSome then ["fillColor"] else []) ++
  (if input.strokeColor.isSome then ["strokeColor"] else []) ++
  (if input.strokeWidth.isSome then ["strokeWidth"] else []) ++
  (if input.sides.isSome then ["sides"] else []) ++
  (if input.points.isSome then ["points"] else []) ++
  (if input.cornerRadius.isSome then ["cornerRadius"] else [])

/-- C8 as stated: for a known shape kind, the created layer's property bag
equals the shape's `createDefault()` bag on every key that is not
explicitly present in the input. -/
def addShapeMergeClaim : Prop :=
  ∀ (input : AddShapeInput) (id : String) (t : ShapeType),
    SHAPE_TYPES (input.shape.getD "undefined") = some t →
    ∀ l ∈ (addShapeHandler input id).added,
      ∀ k : String, k ∉ overriddenKeys input →
        getProp l.properties k = getProp (createDefault t) k

/-- C8 fails as stated: supplying `strokeWidth` also flips `strokeEnabled`,
a key not present in the input — for `{shape: "rect", strokeWidth: 5}` the
created bag has `strokeEnabled = true` while the default is `false`. -/
theorem addShapeMergeClaim_counterexample : ¬ addShapeMergeClaim := by
  intro h
  have hres := h ⟨some "rect", none, none, none, none, none, none, some 5, none, none, none⟩
    "layer-9" ShapeType.rect rfl
    ⟨"layer-9", "shapes:rect", "Rectangle", true, false, 1, "normal",
      ⟨100, 100, 200, 200, 0, 1, 1, 0.5, 0.5⟩,
      [("fillColor", PropValue.str "#ffffff"), ("fillEnabled", PropValue.bool true),
       ("strokeColor", PropValue.str "#000000"), ("strokeWidth", PropValue.num 5),
       ("strokeEnabled", PropValue.bool true), ("cornerRadius", PropValue.num 0)]⟩
    (List.mem_singleton.mpr rfl) "strokeEnabled" (by decide)
  have hboth : (some (PropValue.bool true) : Option PropValue) =
      some (PropValue.bool false) := hres
  simp at hboth

/-- C8 amended: with one exception, only keys explicitly present in the
input are overridden — the created bag equals `createDefault()` on every
other key; the exception, forced by the code, is `strokeEnabled`: supplying
`strokeWidth` also sets `strokeEnabled` to whether the supplied width is
positive.  With input `{shape: "star", points: 8}` the created layer is
exactly the star defaults with `points` set to 8. -/
theorem addShape_merge_spec :
    (∀ (input : AddShapeInput) (id : String) (t : ShapeType),
      SHAPE_TYPES (input.shape.getD "undefined") = some t →
      ∀ l ∈ (addShapeHandler input id).added,
        (∀ k : String, k ∉ overriddenKeys input → k ≠ "strokeEnabled" →
          getProp l.properties k = getProp (createDefault t) k) ∧
        (input.strokeWidth = none →
          getProp l.properties "strokeEnabled" = getProp (createDefault t) "strokeEnabled") ∧
        (∀ w : ℚ, input.strokeWidth = some w →
          getProp l.properties "strokeEnabled" =
            some (PropValue.bool (decide (0 < w))))) ∧
    (addShapeHandler ⟨some "star", none, none, none, none, none, none, none, none, some 8, none⟩
        "layer-3").added =
      [⟨"layer-3", "shapes:star", "Star", true, false, 1, "normal",
        ⟨100, 100, 200, 200, 0, 1, 1, 0.5, 0.5⟩,
        [("fillColor", PropValue.str "#ffffff"), ("fillEnabled", PropValue.bool true),
         ("strokeColor", PropValue.str "#000000"), ("strokeWidth", PropValue.num 0),
         ("strokeEnabled", PropValue.bool false), ("points", PropValue.num 8),
         ("innerRadius", PropValue.num 0.4), ("rotation", PropValue.num 0)]⟩] := by
  constructor
  · intro input id t h l hl
    obtain ⟨shape, x, y, wd, ht, fc, sc, sw, sd, pt, cr⟩ := input
    rcases fc with _ | c1 <;> rcases sc with _ | c2 <;> rcases sw with _ | w0 <;>
      rcases sd with _ | n1 <;> rcases pt with _ | n2 <;> rcases cr with _ | n3 <;>
      simp only [addShapeHandler, h, List.mem_singleton] at hl <;> subst hl <;>
      refine ⟨fun k hk hne => ?_, fun hsw => ?_, fun w hw => ?_⟩ <;>
      simp_all [overriddenKeys, getProp_setProp_ne, getProp_setProp_self]
  · rfl

/-- Witness for `addShape_merge_spec` at a concrete input. -/
theorem addShape_merge_spec_witness :
    getProp
      [("fillColor", PropValue.str "#ffffff"), ("fillEnabled", PropValue.bool true),
       ("strokeColor", PropValue.str "#000000"), ("strokeWidth", PropValue.num 0),
       ("strokeEnabled", PropValue.bool false), ("points", PropValue.num 8),
       ("innerRadius", PropValue.num 0.4), ("rotation", PropValue.num 0)]
      "innerRadius" = getProp (createDefault ShapeType.star) "innerRadius" :=
  ((addShape_merge_spec.1
    ⟨some "star", none, none, none, none, none, none, none, none, some 8, none⟩
    "layer-3" ShapeType.star rfl
    ⟨"layer-3", "shapes:star", "Star", true, false, 1, "normal",
      ⟨100, 100, 200, 200, 0, 1, 1, 0.5, 0.5⟩,
      [("fillColor", PropValue.str "#ffffff"), ("fillEnabled", PropValue.bool true),
       ("strokeColor", PropValue.str "#000000"), ("strokeWidth", PropValue.num 0),
       ("strokeEnabled", PropValue.bool false), ("points", PropValue.num 8),
       ("innerRadius", PropValue.num 0.4), ("rotation", PropValue.num 0)]⟩
    (List.mem_singleton.mpr rfl)).1 "innerRadius" (by decide) (by decide))

/-- C9 as stated: the `add_line` transform is the bounding box of the two
endpoints with the first point as origin — nonnegative extents covering
both endpoints, i.e. width `|x2 − x1|` and height `|y2 − y1|`. -/
def addLineBoundingBoxClaim : Prop :=
  ∀ (input : AddLineInput) (id : String), ∀ l ∈ (addLineHandler input id).added,
    l.transform.x = input.x1.getD 0 ∧
    l.transform.y = input.y1.getD 0 ∧
    l.transform.width = |input.x2.getD 200 - input.x1.getD 0| ∧
    l.transform.height = |input.y2.getD 200 - input.y1.getD 0|

/-- C9 fails as stated: for endpoints (100, 0) and (0, 50) the created
transform has width `x2 − x1 = −100`, a negative extent, not the
bounding-box width `100`. -/
theorem addLineBoundingBoxClaim_counterexample : ¬ addLineBoundingBoxClaim := by
  intro h
  have hres := h ⟨some 100, some 0, some 0, some 50, none, none⟩ "layer-7"
    ⟨"layer-7", "shapes:line", "Line", true, false, 1, "normal",
      ⟨100, 0, 0 - 100, 50 - 0, 0, 1, 1, 0, 0⟩,
      [("strokeColor", PropValue.str "#ffffff"), ("strokeWidth", PropValue.num 2),
       ("lineCap", PropValue.str "round"), ("dashPattern", PropValue.str "")]⟩
    (List.mem_singleton.mpr rfl)
  have hw : (0 : ℚ) - 100 = |(0 : ℚ) - 100| := hres.2.2.1
  norm_num at hw

/-- C9 amended: the `add_line` transform takes the first endpoint as
origin, with signed extents `width = x2 − x1` and `height = y2 − y1` (not
clamped to a bounding box: they are negative whenever the second point
lies left of or above the first). -/
theorem addLine_transform_spec :
    ∀ (input : AddLineInput) (id : String),
      (addLineHandler input id).added.length = 1 ∧
      ∀ l ∈ (addLineHandler input id).added,
        l.type = "shapes:line" ∧
        l.transform.x = input.x1.getD 0 ∧
        l.transform.y = input.y1.getD 0 ∧
        l.transform.width = input.x2.getD 200 - input.x1.getD 0 ∧
        l.transform.height = input.y2.getD 200 - input.y1.getD 0 := by
  intro input id
  refine ⟨rfl, ?_⟩
  intro l hl
  simp only [addLineHandler, List.mem_singleton] at hl
  subst hl
  exact ⟨rfl, rfl, rfl, rfl, rfl⟩

/-- Witness for `addLine_transform_spec` at a concrete input. -/
theorem addLine_transform_spec_witness :
    (⟨"layer-8", "shapes:line", "Line", true, false, 1, "normal",
      ⟨0, 0, 200 - 0, 200 - 0, 0, 1, 1, 0, 0⟩,
      [("strokeColor", PropValue.str "#ffffff"), ("strokeWidth", PropValue.num 2),
       ("lineCap", PropValue.str "round"), ("dashPattern", PropValue.str "")]⟩ :
      DesignLayer).transform.width = (200 : ℚ) - 0 :=
  ((addLine_transform_spec ⟨none, none, none, none, none, none⟩ "layer-8").2 _
    (List.mem_singleton.mpr rfl)).2.2.2.1

/-- C10: `add_shape` accepts exactly the kinds rect, ellipse, polygon and
star; "line", although one of the five registered layer types, is rejected
with an error-flagged result, no layer added and no change emitted — line
layers are created only through `add_line`, whose layers always carry type
"shapes:line". -/
theorem addShape_line_excluded :
    SHAPE_TYPES "line" = none ∧
    "shapes:line" ∈ registeredLayerTypeIds ∧
    (∀ k : String, (SHAPE_TYPES k).isSome = true ↔
      k ∈ (["rect", "ellipse", "polygon", "star"] : List String)) ∧
    (∀ (input : AddShapeInput) (id : String), input.shape = some "line" →
      (addShapeHandler input id).result.isError = true ∧
      (addShapeHandler input id).added = [] ∧
      (addShapeHandler input id).emitted = []) ∧
    (∀ (input : AddLineInput) (id : String), ∀ l ∈ (addLineHandler input id).added,
      l.type = "shapes:line") := by
  refine ⟨rfl, by decide, ?_, ?_, ?_⟩
  · intro k
    unfold SHAPE_TYPES
    by_cases h1 : k = "rect"
    · simp [h1]
    · by_cases h2 : k = "ellipse"
      · simp [h1, h2]
      · by_cases h3 : k = "polygon"
        · simp [h1, h2, h3]
        · by_cases h4 : k = "star"
          · simp [h1, h2, h3, h4]
          · simp [h1, h2, h3, h4]
  · intro input id h
    simp [addShapeHandler, h, SHAPE_TYPES, pureOutcome, errorResult]
  · intro input id l hl
    simp only [addLineHandler, List.mem_singleton] at hl
    subst hl
    rfl

/-- Witness for `addShape_line_excluded` at a concrete input. -/
theorem addShape_line_excluded_witness :
    (addShapeHandler ⟨some "line", none, none, none, none, none, none, none, none, none, none⟩
        "layer-10").added = [] :=
  (addShape_line_excluded.2.2.2.1
    ⟨some "line", none, none, none, none, none, none, none, none, none, none⟩
    "layer-10" rfl).2.1

end GenartShapes
